import Mathlib

/-!
Verification of the process-supervision core of the
`deadline-cloud-for-arnold-standalone` repository.

The embedding follows `src/deadline/arnold_adaptor/ArnoldAdaptor/adaptor.py`
(class `ArnoldAdaptor`) and
`src/deadline/arnold_adaptor/ArnoldClient/arnold_client.py` (function `main`).

Modelling conventions:
  * Python exceptions are `Except String` values; the stored message is the
    exception's message text.
  * Wall-clock timers (`_get_timer`) are modelled by a fuel counter: the
    number of remaining poll iterations for which `is_not_timed_out()` is
    still true.  Busy-wait loops are driven by a finite trace of snapshots
    of the shared state, one snapshot per poll iteration; the snapshots are
    supplied by the environment (the other threads).
  * `LoggingSubprocess.terminate` is modelled as making the worker process
    not alive (force kill), and `AdaptorServer.shutdown` as stopping the
    server; logging calls have no state effect and are omitted.
-/

namespace Arnold

/-- A Python value occurring in `init_data` / Action payloads. -/
inductive Val where
  | vb : Bool → Val
  | vs : String → Val
  | vi : Int → Val
deriving DecidableEq, Repr

/-- Python truthiness of a `Val`, used by `init_data.get("strict_error_checking", True)`. -/
def truthy : Val → Bool
  | .vb b => b
  | .vs s => !s.isEmpty
  | .vi i => i != 0

/-- Lookup of a key in a Python dict modelled as an association list. -/
def lookupInit (d : List (String × Val)) (k : String) : Option Val :=
  match d.find? (fun p => p.1 == k) with
  | some p => some p.2
  | none => none

/-- An openjd `Action`: a name plus a payload dict. -/
structure ActionT where
  name : String
  payload : List (String × Val)
deriving DecidableEq, Repr

/-- Handle on the `LoggingSubprocess` running the Arnold client:
liveness (`is_running`) and exit code (`returncode`). -/
structure Client where
  alive : Bool
  returncode : Int
deriving DecidableEq, Repr

/-- Handle on the `AdaptorServer`: whether its serve loop is still running. -/
structure ServerH where
  running : Bool
deriving DecidableEq, Repr

/-- The shared state of an `ArnoldAdaptor` instance: `_arnold_client`,
`_server`, `_action_queue`, `_is_rendering`, `_exc_info` (as the exception
message) and `_performing_cleanup`, plus the list of progress values passed
to `update_status`. -/
structure AdaptorState where
  client : Option Client
  server : Option ServerH
  queue : List ActionT
  isRendering : Bool
  excInfo : Option String
  performingCleanup : Bool
  reports : List Nat
deriving DecidableEq, Repr

/-- The class-attribute defaults of `ArnoldAdaptor`. -/
def initialAdaptorState : AdaptorState :=
  { client := none, server := none, queue := [], isRendering := false,
    excInfo := none, performingCleanup := false, reports := [] }

/-- `ArnoldAdaptor._arnold_is_running`: the client exists and is running. -/
def arnoldIsRunning (s : AdaptorState) : Bool :=
  match s.client with
  | some c => c.alive
  | none => false

/-- `ArnoldAdaptor._arnold_is_rendering`. -/
def arnoldIsRendering (s : AdaptorState) : Bool :=
  arnoldIsRunning s && s.isRendering

/-- `ArnoldAdaptor._has_exception`: raises the stored exception unless
cleanup is in progress; otherwise returns `False`. -/
def hasExceptionE (s : AdaptorState) : Except String Bool :=
  match s.excInfo with
  | some e => if s.performingCleanup then .ok false else .error e
  | none => .ok false

/-- `ArnoldAdaptor.update_status(progress=p)`, recorded as an emitted report. -/
def updateStatusProgress (p : Nat) (s : AdaptorState) : AdaptorState :=
  { s with reports := s.reports ++ [p] }

/-- The `_check_for_exception` decorator: calls the wrapped handler only when
`_has_exception` neither raises nor returns `True`. -/
def checkForException (f : AdaptorState → AdaptorState) (s : AdaptorState) :
    Except String AdaptorState :=
  match hasExceptionE s with
  | .error e => .error e
  | .ok b => if b = false then .ok (f s) else .ok s

/-! Output monitor: the regex callbacks of `_get_regex_callbacks` and the
handlers `_handle_complete`, `_handle_progress`, `_handle_error`.  The three
patterns from the source are
`"ArnoldClient: Finished Rendering Frame [0-9]+"`,
`"\[PROGRESS\] ([0-9]+) percent"` and
`".*Exception:.*|.*Error:.*|.*Warning.*"`; they are embedded as explicit
matchers on the line's character list (`re.search` semantics: the pattern may
match at any position of the line). -/

/-- `p` occurs at the start of `l`. -/
def listStartsWith : List Char → List Char → Bool
  | [], _ => true
  | _ :: _, [] => false
  | p :: ps, c :: cs => p == c && listStartsWith ps cs

/-- `pat` occurs somewhere inside `l`. -/
def listHasSub (pat : List Char) : List Char → Bool
  | [] => pat.isEmpty
  | c :: cs => listStartsWith pat (c :: cs) || listHasSub pat cs

/-- `pat` occurs somewhere inside the string `s`. -/
def strContainsSub (s pat : String) : Bool :=
  listHasSub pat.data s.data

/-- Proposition form of substring containment. -/
def ContainsSub (s pat : String) : Prop :=
  strContainsSub s pat = true

instance (s pat : String) : Decidable (ContainsSub s pat) := by
  unfold ContainsSub; exact inferInstance

/-- The character class `[0-9]`. -/
def isDigitChar (c : Char) : Bool :=
  '0' ≤ c && c ≤ '9'

/-- Python `int()` of a non-empty decimal digit string. -/
def digitsToNat (ds : List Char) : Nat :=
  ds.foldl (fun acc c => acc * 10 + (c.toNat - '0'.toNat)) 0

/-- Literal part of the completion pattern. -/
def litFinished : List Char := "ArnoldClient: Finished Rendering Frame ".data

/-- Literal head of the progress pattern. -/
def litProgressHead : List Char := "[PROGRESS] ".data

/-- Literal tail of the progress pattern. -/
def litPercent : List Char := " percent".data

/-- The completion pattern matches at the head of `l`. -/
def matchCompleteAt (l : List Char) : Bool :=
  listStartsWith litFinished l &&
    (match l.drop litFinished.length with
     | c :: _ => isDigitChar c
     | [] => false)

/-- The completion pattern matches somewhere in `l` (`re.search`). -/
def searchCompleteList : List Char → Bool
  | [] => matchCompleteAt []
  | c :: cs => matchCompleteAt (c :: cs) || searchCompleteList cs

/-- The line matches `"ArnoldClient: Finished Rendering Frame [0-9]+"`. -/
def matchesCompleteB (line : String) : Bool :=
  searchCompleteList line.data

/-- The progress pattern matches at the head of `l`; returns the captured
maximal digit run (`([0-9]+)` is greedy, and backtracking cannot shorten it
because the following pattern character is a space). -/
def matchProgressAt (l : List Char) : Option (List Char) :=
  if listStartsWith litProgressHead l then
    let rest := l.drop litProgressHead.length
    let ds := rest.takeWhile isDigitChar
    if ds.length = 0 then none
    else if listStartsWith litPercent (rest.drop ds.length) then some ds
    else none
  else none

/-- Leftmost match of the progress pattern in `l` (`re.search`). -/
def searchProgressList : List Char → Option (List Char)
  | [] => matchProgressAt []
  | c :: cs =>
    match matchProgressAt (c :: cs) with
    | some ds => some ds
    | none => searchProgressList cs

/-- Captured group of `"\[PROGRESS\] ([0-9]+) percent"` on the line, if any. -/
def searchProgress (line : String) : Option (List Char) :=
  searchProgressList line.data

/-- The line matches `".*Exception:.*|.*Error:.*|.*Warning.*"`: it contains
one of the three markers.  Since `.` matches anything but a newline and a
line holds none, `match.group(0)` is then the whole line. -/
def matchesErrorB (line : String) : Bool :=
  strContainsSub line "Exception:" || strContainsSub line "Error:" ||
    strContainsSub line "Warning"

/-- Message of the `RuntimeError` stored by `_handle_error`. -/
def errorMsg (line : String) : String :=
  "Arnold Kick Encountered an Error: " ++ line

/-- Body of `_handle_complete` (inside the decorator). -/
def handleCompleteCore (s : AdaptorState) : AdaptorState :=
  updateStatusProgress 100 { s with isRendering := false }

/-- `_handle_complete`, decorated with `_check_for_exception`. -/
def handleComplete (s : AdaptorState) : Except String AdaptorState :=
  checkForException handleCompleteCore s

/-- Body of `_handle_progress` (inside the decorator); `ds` is the captured
digit group of the match. -/
def handleProgressCore (ds : List Char) (s : AdaptorState) : AdaptorState :=
  updateStatusProgress (digitsToNat ds) s

/-- `_handle_progress`, decorated with `_check_for_exception`. -/
def handleProgress (ds : List Char) (s : AdaptorState) :
    Except String AdaptorState :=
  checkForException (handleProgressCore ds) s

/-- `_handle_error`: unconditionally stores a new `RuntimeError` built from
`match.group(0)` (the whole line) in `_exc_info`. -/
def handleError (line : String) (s : AdaptorState) : AdaptorState :=
  { s with excInfo := some (errorMsg line) }

/-- A handler invocation on the stdout/stderr reader thread: if the handler
raises (the decorator re-raising the stored exception), the raise happens on
the reader thread and the adaptor state is unchanged. -/
def runHandler (h : AdaptorState → Except String AdaptorState)
    (s : AdaptorState) : AdaptorState :=
  match h s with
  | .ok s' => s'
  | .error _ => s

/-- `init_data.get("strict_error_checking", True)` as used by
`_get_regex_callbacks` to decide whether the error callback is registered. -/
def strictErrorChecking (d : List (String × Val)) : Bool :=
  match lookupInit d "strict_error_checking" with
  | some v => truthy v
  | none => true

/-- The completion callback group applied to one line. -/
def completeStep (line : String) (s : AdaptorState) : AdaptorState :=
  if matchesCompleteB line then runHandler handleComplete s else s

/-- The progress callback group applied to one line. -/
def progressStep (line : String) (s : AdaptorState) : AdaptorState :=
  match searchProgress line with
  | some ds => runHandler (handleProgress ds) s
  | none => s

/-- The error callback group applied to one line (registered only when
strict error checking is on). -/
def errorStep (strict : Bool) (line : String) (s : AdaptorState) :
    AdaptorState :=
  if strict && matchesErrorB line then handleError line s else s

/-- Processing of one worker output line by the `RegexHandler` built from
`_get_regex_callbacks`: each registered callback group is tried in
registration order — completion, progress, then (only when strict error
checking is on) error — and a group whose pattern matches the line fires its
handler once. -/
def processLine (strict : Bool) (s : AdaptorState) (line : String) :
    AdaptorState :=
  errorStep strict line (progressStep line (completeStep line s))

/-! Adaptor lifecycle: `on_start` (its busy-poll and post-loop checks),
`on_run`, and `on_cleanup`.  Each busy-wait loop reads the shared state once
per iteration; a trace of `AdaptorState` snapshots supplies those reads. -/

/-- `_ARNOLD_INIT_KEYS` (a Python set; listed in source order). -/
def ARNOLD_INIT_KEYS : List String :=
  ["scene_file", "output_file_path", "error_on_arnold_license_fail"]

/-- `_ARNOLD_START_TIMEOUT_SECONDS`. -/
def ARNOLD_START_TIMEOUT_SECONDS : Nat := 86400

/-- `_ARNOLD_END_TIMEOUT_SECONDS`. -/
def ARNOLD_END_TIMEOUT_SECONDS : Nat := 30

/-- `_SERVER_START_TIMEOUT_SECONDS`. -/
def SERVER_START_TIMEOUT_SECONDS : Nat := 30

/-- `ArnoldAdaptor._action_from_action_item`: an Action named after the init
key whose payload is the singleton dict `{key: init_data[key]}`.  The `none`
case covers a key absent from `init_data` (where the Python dict access
would raise); `_populate_action_queue` only calls it for present keys. -/
def actionFromActionItem (d : List (String × Val)) (k : String) :
    Option ActionT :=
  (lookupInit d k).map (fun v => ⟨k, [(k, v)]⟩)

/-- `ArnoldAdaptor._populate_action_queue`: for each recognized init key
present in `init_data`, enqueue the corresponding Action at the back of the
queue `q`. -/
def populateActionQueue (d : List (String × Val)) (q : List ActionT) :
    List ActionT :=
  ARNOLD_INIT_KEYS.foldl
    (fun acc k =>
      match actionFromActionItem d k with
      | some a => acc ++ [a]
      | none => acc)
    q

/-- Message of the `RuntimeError` raised after `on_start`'s poll when the
queue is not drained but the timer has not expired. -/
def startRuntimeErrorMsg : String :=
  "Arnold Kick encountered an error and was not able to complete initialization actions."

/-- Message of the `TimeoutError` raised after `on_start`'s poll when the
timer has expired. -/
def startTimeoutMsg : String :=
  "Arnold Kick did not complete initialization actions in " ++
    toString ARNOLD_START_TIMEOUT_SECONDS ++ " seconds and failed to start."

/-- `on_start`'s busy-poll: iterate while the client is running, no exception
is recorded (`_has_exception` raises one that is), the queue is non-empty and
the timer has not expired.  `fuel` is the remaining number of iterations the
timer allows.  Returns the snapshot read at loop exit together with the value
of `is_not_timed_out()` there, or `none` when the supplied trace ends with
the loop still iterating. -/
def onStartLoop : Nat → List AdaptorState →
    Except String (Option (AdaptorState × Bool))
  | _, [] => .ok none
  | fuel, s :: rest =>
    if arnoldIsRunning s = false then .ok (some (s, decide (0 < fuel)))
    else
      match hasExceptionE s with
      | .error e => .error e
      | .ok _ =>
        if s.queue.length = 0 then .ok (some (s, decide (0 < fuel)))
        else if fuel = 0 then .ok (some (s, false))
        else onStartLoop (fuel - 1) rest

/-- The post-loop check of `on_start`: with the queue still non-empty, raise
`RuntimeError` when the timer has not expired, else `TimeoutError`. -/
def onStartAfter (s : AdaptorState) (notTimedOut : Bool) :
    Except String Unit :=
  if 0 < s.queue.length then
    if notTimedOut then .error startRuntimeErrorMsg
    else .error startTimeoutMsg
  else .ok ()

/-- `on_start` from its busy-poll onward: run the poll, then the post-loop
check. -/
def onStartTail (fuel : Nat) (tr : List AdaptorState) :
    Except String (Option AdaptorState) :=
  match onStartLoop fuel tr with
  | .error e => .error e
  | .ok none => .ok none
  | .ok (some (s, nto)) =>
    match onStartAfter s nto with
    | .error e => .error e
    | .ok _ => .ok (some s)

/-- Message of the `ArnoldNotRunningError` raised at the top of `on_run`. -/
def notRunningMsg : String :=
  "Cannot render because Arnold Kick is not running."

/-- Message head of the unexpected-exit `RuntimeError` of `on_run`. -/
def runExitPrefixMsg : String :=
  "Arnold Kick exited early and did not render successfully, please check render logs. Exit code "

/-- The full unexpected-exit message carrying the worker's exit code. -/
def runExitErrorMsg (code : Int) : String :=
  runExitPrefixMsg ++ toString code

/-- The `start_render` Action enqueued by `on_run`. -/
def startRenderAction (runData : List (String × Val)) : ActionT :=
  ⟨"start_render", runData⟩

/-- The state mutation `on_run` performs before its wait loop: set
`_is_rendering` and enqueue `start_render` with the full run payload. -/
def onRunBegin (s0 : AdaptorState) (runData : List (String × Val)) :
    AdaptorState :=
  { s0 with isRendering := true,
            queue := s0.queue ++ [startRenderAction runData] }

/-- `on_run`'s render-wait loop: iterate while `_arnold_is_rendering` holds
and `_has_exception` does not raise; return the snapshot read at loop exit,
or `none` when the trace ends with the render still in progress. -/
def onRunLoop : List AdaptorState → Except String (Option AdaptorState)
  | [] => .ok none
  | s :: rest =>
    if arnoldIsRendering s then
      match hasExceptionE s with
      | .error e => .error e
      | .ok _ => onRunLoop rest
    else .ok (some s)

/-- The post-loop check of `on_run`: raise the unexpected-exit `RuntimeError`
when the client exists but is no longer running. -/
def onRunAfter (s : AdaptorState) : Except String Unit :=
  match s.client with
  | some c => if c.alive = false then .error (runExitErrorMsg c.returncode) else .ok ()
  | none => .ok ()

/-- `on_run`'s wait loop followed by its post-loop check. -/
def onRunTail (tr : List AdaptorState) : Except String (Option AdaptorState) :=
  match onRunLoop tr with
  | .error e => .error e
  | .ok none => .ok none
  | .ok (some s) =>
    match onRunAfter s with
    | .error e => .error e
    | .ok _ => .ok (some s)

/-- `on_run`: guard on `_arnold_is_running` (schema validation of `run_data`
is external), set the rendering flag, enqueue `start_render`, then wait;
the state set up before the loop is the loop's first snapshot and `tr`
supplies the later ones. -/
def onRun (s0 : AdaptorState) (runData : List (String × Val))
    (tr : List AdaptorState) : Except String (Option AdaptorState) :=
  if arnoldIsRunning s0 = false then .error notRunningMsg
  else onRunTail (onRunBegin s0 runData :: tr)

/-- The front-enqueued `close` Action of `on_cleanup` (no payload). -/
def closeAction : ActionT := ⟨"close", []⟩

/-- Set the worker's liveness as observed at the next poll (the environment:
the worker may exit at any time during `on_cleanup`'s wait). -/
def setAlive (s : AdaptorState) (a : Bool) : AdaptorState :=
  match s.client with
  | some c => { s with client := some { c with alive := a } }
  | none => s

/-- `on_cleanup`'s wait loop: while the client is running and the timer has
not expired, sleep; each trace element is the liveness observed after one
sleep, and an exhausted trace is an expired timer. -/
def cleanupWait : AdaptorState → List Bool → AdaptorState
  | s, [] => s
  | s, a :: rest =>
    if arnoldIsRunning s then cleanupWait (setAlive s a) rest else s

/-- `LoggingSubprocess.terminate()`: force-kill the worker. -/
def terminateClient (s : AdaptorState) : AdaptorState :=
  match s.client with
  | some c => { s with client := some { c with alive := false } }
  | none => s

/-- `AdaptorServer.shutdown()`: stop the serve loop. -/
def shutdownServer (s : AdaptorState) : AdaptorState :=
  match s.server with
  | some _ => { s with server := some ⟨false⟩ }
  | none => s

/-- The server is not running (vacuously so when it was never started). -/
def serverStopped (s : AdaptorState) : Bool :=
  match s.server with
  | some h => !h.running
  | none => true

/-- The first two statements of `on_cleanup`: set `_performing_cleanup` and
front-enqueue the `close` Action. -/
def beginCleanup (s0 : AdaptorState) : AdaptorState :=
  { s0 with performingCleanup := true, queue := closeAction :: s0.queue }

/-- The `if self._arnold_is_running and self._arnold_client:` branch of
`on_cleanup`: log and force-terminate the worker. -/
def terminateIfRunning (s : AdaptorState) : AdaptorState :=
  if arnoldIsRunning s && s.client.isSome then terminateClient s else s

/-- The last statement of `on_cleanup`. -/
def clearCleanupFlag (s : AdaptorState) : AdaptorState :=
  { s with performingCleanup := false }

/-- The state at the end of `on_cleanup`: set the cleanup flag,
front-enqueue `close`, wait up to the timer bound for the worker to exit,
force-terminate it if still alive (logging, not raising), shut the server
down, join the server thread (logging on failure; no state effect), and
clear the cleanup flag. -/
def onCleanupState (s0 : AdaptorState) (env : List Bool) : AdaptorState :=
  clearCleanupFlag
    (shutdownServer (terminateIfRunning (cleanupWait (beginCleanup s0) env)))

/-- `on_cleanup` as a fallible computation: none of its statements raises,
so it always returns its final state. -/
def onCleanup (s0 : AdaptorState) (env : List Bool) :
    Except String AdaptorState :=
  .ok (onCleanupState s0 env)

/-! The worker client: `main` of
`src/deadline/arnold_adaptor/ArnoldClient/arnold_client.py`. -/

/-- The environment variable naming the socket path. -/
def SERVER_PATH_ENV : String := "ARNOLD_ADAPTOR_SERVER_PATH"

/-- `os.environ.get(key)` over an environment association list. -/
def envGet (env : List (String × String)) (k : String) : Option String :=
  (env.find? (fun p => p.1 == k)).map (fun p => p.2)

/-- Error message when the environment variable is absent (or empty, which
Python's `if not server_path` also treats as absent). -/
def clientNoVarMsg : String :=
  "ArnoldClient cannot connect to the Adaptor because the environment variable ARNOLD_ADAPTOR_SERVER_PATH does not exist"

/-- Error message when the socket path does not exist on disk. -/
def clientNoPathMsg (p : String) : String :=
  "ArnoldClient cannot connect to the Adaptor because the socket at the path defined by the environment variable ARNOLD_ADAPTOR_SERVER_PATH does not exist. Got: "
    ++ p

/-- `main` of the worker client: a single check of the environment variable
and a single `os.path.exists` check, then connect and poll.  `pathExistsAt t
p` says whether path `p` exists on disk `t` seconds after the client starts;
the code samples it exactly once, at time `0` — there is no retry loop. -/
def clientMain (env : List (String × String))
    (pathExistsAt : Nat → String → Bool) : Except String Unit :=
  match envGet env SERVER_PATH_ENV with
  | none => .error clientNoVarMsg
  | some p =>
    if p.isEmpty then .error clientNoVarMsg
    else if pathExistsAt 0 p then .ok ()
    else .error (clientNoPathMsg p)

/-! Helper lemmas. -/

theorem listStartsWith_refl (l : List Char) : listStartsWith l l = true := by
  induction l with
  | nil => rfl
  | cons c cs ih => simp [listStartsWith, ih]

theorem listHasSub_append (pre pat : List Char) :
    listHasSub pat (pre ++ pat) = true := by
  induction pre with
  | nil =>
    cases pat with
    | nil => rfl
    | cons c cs => simp [listHasSub, listStartsWith_refl]
  | cons c cs ih => simp [listHasSub, ih]

/-- A string contains any of its terminal segments. -/
theorem containsSub_of_append (a b : String) : ContainsSub (a ++ b) b := by
  unfold ContainsSub strContainsSub
  rw [String.data_append]
  exact listHasSub_append a.data b.data

theorem runHandler_check (f : AdaptorState → AdaptorState) (s : AdaptorState) :
    runHandler (checkForException f) s = s ∨
      runHandler (checkForException f) s = f s := by
  unfold runHandler checkForException hasExceptionE
  rcases h : s.excInfo with _ | e
  · simp
  · rcases hpc : s.performingCleanup with _ | _ <;> simp

theorem runHandler_complete_cases (s : AdaptorState) :
    runHandler handleComplete s = s ∨
      runHandler handleComplete s = handleCompleteCore s :=
  runHandler_check handleCompleteCore s

theorem runHandler_progress_cases (ds : List Char) (s : AdaptorState) :
    runHandler (handleProgress ds) s = s ∨
      runHandler (handleProgress ds) s = handleProgressCore ds s :=
  runHandler_check (handleProgressCore ds) s

theorem runHandler_check_of_none (f : AdaptorState → AdaptorState)
    (s : AdaptorState) (h : s.excInfo = none) :
    runHandler (checkForException f) s = f s := by
  unfold runHandler checkForException hasExceptionE
  simp [h]

theorem runHandler_complete_of_none (s : AdaptorState)
    (h : s.excInfo = none) :
    runHandler handleComplete s = handleCompleteCore s :=
  runHandler_check_of_none handleCompleteCore s h

theorem runHandler_progress_of_none (ds : List Char) (s : AdaptorState)
    (h : s.excInfo = none) :
    runHandler (handleProgress ds) s = handleProgressCore ds s :=
  runHandler_check_of_none (handleProgressCore ds) s h

theorem completeStep_excInfo (line : String) (s : AdaptorState) :
    (completeStep line s).excInfo = s.excInfo := by
  unfold completeStep
  split
  · rcases runHandler_complete_cases s with h | h <;> rw [h] <;> rfl
  · rfl

theorem completeStep_performingCleanup (line : String) (s : AdaptorState) :
    (completeStep line s).performingCleanup = s.performingCleanup := by
  unfold completeStep
  split
  · rcases runHandler_complete_cases s with h | h <;> rw [h] <;> rfl
  · rfl

theorem progressStep_excInfo (line : String) (s : AdaptorState) :
    (progressStep line s).excInfo = s.excInfo := by
  unfold progressStep
  split
  · rcases runHandler_progress_cases _ s with h | h <;> rw [h] <;> rfl
  · rfl

theorem progressStep_performingCleanup (line : String) (s : AdaptorState) :
    (progressStep line s).performingCleanup = s.performingCleanup := by
  unfold progressStep
  split
  · rcases runHandler_progress_cases _ s with h | h <;> rw [h] <;> rfl
  · rfl

theorem progressStep_isRendering (line : String) (s : AdaptorState) :
    (progressStep line s).isRendering = s.isRendering := by
  unfold progressStep
  split
  · rcases runHandler_progress_cases _ s with h | h <;> rw [h] <;> rfl
  · rfl

theorem errorStep_reports (strict : Bool) (line : String) (s : AdaptorState) :
    (errorStep strict line s).reports = s.reports := by
  unfold errorStep
  split <;> rfl

theorem errorStep_isRendering (strict : Bool) (line : String)
    (s : AdaptorState) :
    (errorStep strict line s).isRendering = s.isRendering := by
  unfold errorStep
  split <;> rfl

theorem errorStep_performingCleanup (strict : Bool) (line : String)
    (s : AdaptorState) :
    (errorStep strict line s).performingCleanup = s.performingCleanup := by
  unfold errorStep
  split <;> rfl

theorem processLine_performingCleanup (strict : Bool) (s : AdaptorState)
    (line : String) :
    (processLine strict s line).performingCleanup = s.performingCleanup := by
  unfold processLine
  rw [errorStep_performingCleanup, progressStep_performingCleanup,
    completeStep_performingCleanup]

/-! Claim theorems for the output monitor. -/

/-- C4: once `_exc_info` is set and cleanup is not in progress, the
completion and progress handlers are skipped — the `_check_for_exception`
decorator re-raises the stored exception at the top of each handler — so no
rendering-state mutation (`_is_rendering` update or progress report) occurs
from those handlers after an error is recorded; during cleanup the handlers
do run. -/
theorem handlers_skipped_after_exception (s : AdaptorState) (e : String)
    (ds : List Char) (h1 : s.excInfo = some e) :
    (s.performingCleanup = false →
      handleComplete s = Except.error e ∧
      handleProgress ds s = Except.error e) ∧
    (s.performingCleanup = true →
      handleComplete s = Except.ok (handleCompleteCore s) ∧
      handleProgress ds s = Except.ok (handleProgressCore ds s)) := by
  constructor
  · intro h2
    constructor <;>
      simp [handleComplete, handleProgress, checkForException, hasExceptionE,
        h1, h2]
  · intro h2
    constructor <;>
      simp [handleComplete, handleProgress, checkForException, hasExceptionE,
        h1, h2]

/-- Witness for C4 at a concrete state carrying a recorded error. -/
theorem handlers_skipped_after_exception_witness :
    handleComplete { initialAdaptorState with excInfo := some "boom" } =
      Except.error "boom" ∧
    handleProgress ['4', '2']
        { initialAdaptorState with excInfo := some "boom" } =
      Except.error "boom" :=
  (handlers_skipped_after_exception
    { initialAdaptorState with excInfo := some "boom" } "boom" ['4', '2']
    rfl).1 rfl

/-- C5 counterexample: `_handle_error` overwrites `_exc_info` on every
matching line, so after the lines `"Error: a"` then `"Error: b"` the stored
exception is the one for `"Error: b"`, not the first error — the claim that
a subsequently matching line does not replace the stored exception is
false. -/
theorem handleError_overwrite_cex :
    (processLine true initialAdaptorState "Error: a").excInfo =
      some (errorMsg "Error: a") ∧
    (processLine true (processLine true initialAdaptorState "Error: a")
        "Error: b").excInfo = some (errorMsg "Error: b") ∧
    errorMsg "Error: b" ≠ errorMsg "Error: a" := by
  refine ⟨by decide, by decide, by decide⟩

/-- C5 amended: writes to the fatal-error slot are last-wins — every line
matching the error pattern replaces the stored exception with the error for
that line — and the slot is never cleared by line processing, so once an
error is recorded the slot stays set. -/
theorem handleError_last_wins (s : AdaptorState) (line l' : String)
    (e : String) (hm : matchesErrorB line = true) :
    (processLine true s line).excInfo = some (errorMsg line) ∧
    (∀ strict : Bool, s.excInfo = some e →
      (processLine strict s l').excInfo ≠ none) := by
  constructor
  · unfold processLine errorStep
    simp [hm, handleError]
  · intro strict he
    unfold processLine errorStep
    split
    · simp [handleError]
    · rw [progressStep_excInfo, completeStep_excInfo, he]
      simp

/-- Witness for C5's amended claim. -/
theorem handleError_last_wins_witness :
    (processLine true
        { initialAdaptorState with excInfo := some (errorMsg "Error: a") }
        "Error: b").excInfo = some (errorMsg "Error: b") ∧
    (processLine false
        { initialAdaptorState with excInfo := some (errorMsg "Error: a") }
        "harmless line").excInfo ≠ none := by
  have h := handleError_last_wins
    { initialAdaptorState with excInfo := some (errorMsg "Error: a") }
    "Error: b" "harmless line" (errorMsg "Error: a") (by decide)
  exact ⟨h.1, h.2 false rfl⟩

/-- C6: a line matching the progress pattern with captured digits `ds`
makes the progress handler report exactly the integer value of `ds`, and a
line matching the completion pattern makes the completion handler report
progress `100` and clear the rendering flag. -/
theorem progress_and_complete_reports (strict : Bool) (s : AdaptorState)
    (line : String) (ds : List Char) (hexc : s.excInfo = none) :
    (searchProgress line = some ds → matchesCompleteB line = false →
      (processLine strict s line).reports =
        s.reports ++ [digitsToNat ds]) ∧
    (matchesCompleteB line = true →
      (processLine strict s line).isRendering = false ∧
      s.reports ++ [100] <+: (processLine strict s line).reports) := by
  constructor
  · intro hp hnc
    unfold processLine
    rw [errorStep_reports]
    have hcs : completeStep line s = s := by
      unfold completeStep
      simp [hnc]
    rw [hcs]
    unfold progressStep
    rw [hp]
    show (runHandler (handleProgress ds) s).reports =
      s.reports ++ [digitsToNat ds]
    rw [runHandler_progress_of_none _ _ hexc]
    rfl
  · intro hcomp
    have hcs : completeStep line s = handleCompleteCore s := by
      unfold completeStep
      rw [if_pos hcomp]
      exact runHandler_complete_of_none _ hexc
    have hcore_exc : (handleCompleteCore s).excInfo = none := hexc
    constructor
    · unfold processLine
      rw [errorStep_isRendering, progressStep_isRendering, hcs]
      rfl
    · unfold processLine
      rw [errorStep_reports, hcs]
      unfold progressStep
      rcases hsp : searchProgress line with _ | ds'
      · exact List.prefix_rfl
      · show s.reports ++ [100] <+:
          (runHandler (handleProgress ds') (handleCompleteCore s)).reports
        rw [runHandler_progress_of_none _ _ hcore_exc]
        exact List.prefix_append _ _

/-- Witness for C6: `"[PROGRESS] 42 percent"` reports exactly 42, and a
completion line reports 100 and clears the rendering flag. -/
theorem progress_and_complete_reports_witness :
    (processLine true initialAdaptorState "[PROGRESS] 42 percent").reports =
      [42] ∧
    (processLine true { initialAdaptorState with isRendering := true }
        "ArnoldClient: Finished Rendering Frame 1").isRendering = false ∧
    [100] <+:
      (processLine true { initialAdaptorState with isRendering := true }
        "ArnoldClient: Finished Rendering Frame 1").reports := by
  have h1 := progress_and_complete_reports true initialAdaptorState
    "[PROGRESS] 42 percent" ['4', '2'] rfl
  have h2 := progress_and_complete_reports true
    { initialAdaptorState with isRendering := true }
    "ArnoldClient: Finished Rendering Frame 1" [] rfl
  refine ⟨?_, (h2.2 (by decide)).1, ?_⟩
  · have hr := h1.1 (by decide) (by decide)
    rw [hr]
    decide
  · have hr := (h2.2 (by decide)).2
    simpa using hr

/-- C7: with strict error checking enabled (the default when the
`strict_error_checking` key is absent from `init_data`), a line containing
`"Exception:"`, `"Error:"` or `"Warning"` records a fatal error whose
message contains the line, and the next `_has_exception` check raises it;
with strict error checking disabled the same line records no error and the
next check does not raise. -/
theorem strict_error_checking_spec (d : List (String × Val))
    (s : AdaptorState) (line : String) (hm : matchesErrorB line = true)
    (hpc : s.performingCleanup = false) :
    (lookupInit d "strict_error_checking" = none →
      strictErrorChecking d = true) ∧
    (strictErrorChecking d = true →
      (processLine (strictErrorChecking d) s line).excInfo =
        some (errorMsg line) ∧
      ContainsSub (errorMsg line) line ∧
      hasExceptionE (processLine (strictErrorChecking d) s line) =
        Except.error (errorMsg line)) ∧
    (strictErrorChecking d = false →
      (processLine (strictErrorChecking d) s line).excInfo = s.excInfo ∧
      (s.excInfo = none →
        hasExceptionE (processLine (strictErrorChecking d) s line) =
          Except.ok false)) := by
  refine ⟨?_, ?_, ?_⟩
  · intro h
    unfold strictErrorChecking
    rw [h]
  · intro hst
    have hexc : (processLine (strictErrorChecking d) s line).excInfo =
        some (errorMsg line) := by
      unfold processLine errorStep
      simp [hst, hm, handleError]
    have hcl : (processLine (strictErrorChecking d) s line).performingCleanup
        = false := by
      rw [processLine_performingCleanup]
      exact hpc
    refine ⟨hexc, containsSub_of_append _ _, ?_⟩
    unfold hasExceptionE
    rw [hexc, hcl]
    simp
  · intro hst
    have hexc : (processLine (strictErrorChecking d) s line).excInfo =
        s.excInfo := by
      unfold processLine errorStep
      rw [hst]
      simp
      rw [progressStep_excInfo, completeStep_excInfo]
    refine ⟨hexc, ?_⟩
    intro hnone
    unfold hasExceptionE
    rw [hexc, hnone]

/-- Witness for C7 with the line `"RuntimeError: boom"`: with the key absent
the error is recorded and its message contains `"boom"`; with
`strict_error_checking` set to `False` nothing is recorded. -/
theorem strict_error_checking_spec_witness :
    (processLine (strictErrorChecking []) initialAdaptorState
        "RuntimeError: boom").excInfo = some (errorMsg "RuntimeError: boom") ∧
    hasExceptionE (processLine (strictErrorChecking []) initialAdaptorState
        "RuntimeError: boom") = Except.error (errorMsg "RuntimeError: boom") ∧
    ContainsSub (errorMsg "RuntimeError: boom") "boom" ∧
    (processLine
        (strictErrorChecking [("strict_error_checking", Val.vb false)])
        initialAdaptorState "RuntimeError: boom").excInfo = none ∧
    hasExceptionE (processLine
        (strictErrorChecking [("strict_error_checking", Val.vb false)])
        initialAdaptorState "RuntimeError: boom") = Except.ok false := by
  have h1 := strict_error_checking_spec [] initialAdaptorState
    "RuntimeError: boom" (by decide) rfl
  have h2 := strict_error_checking_spec
    [("strict_error_checking", Val.vb false)] initialAdaptorState
    "RuntimeError: boom" (by decide) rfl
  have hs1 : strictErrorChecking ([] : List (String × Val)) = true := by decide
  have hs2 : strictErrorChecking [("strict_error_checking", Val.vb false)] =
      false := by decide
  obtain ⟨e1, -, e3⟩ := h1.2.1 hs1
  obtain ⟨f1, f2⟩ := h2.2.2 hs2
  exact ⟨e1, e3, by decide, f1, f2 rfl⟩

/-! Lemmas about the `on_run` wait loop. -/

theorem onRunLoop_exit_mem (tr : List AdaptorState) (s : AdaptorState)
    (h : onRunLoop tr = Except.ok (some s)) : s ∈ tr := by
  induction tr with
  | nil => simp [onRunLoop] at h
  | cons x rest ih =>
    unfold onRunLoop at h
    split at h
    · split at h
      · exact absurd h (by simp)
      · exact List.mem_cons_of_mem x (ih h)
    · simp at h
      rw [h]
      exact List.mem_cons_self _ _

theorem onRunLoop_exit_not_rendering (tr : List AdaptorState)
    (s : AdaptorState) (h : onRunLoop tr = Except.ok (some s)) :
    arnoldIsRendering s = false := by
  induction tr with
  | nil => simp [onRunLoop] at h
  | cons x rest ih =>
    unfold onRunLoop at h
    split at h
    · split at h
      · exact absurd h (by simp)
      · exact ih h
    · next hr =>
      simp at h
      rw [← h]
      simpa using hr

theorem arnoldIsRunning_isSome (s : AdaptorState)
    (h : arnoldIsRunning s = true) : s.client.isSome = true := by
  rcases hc : s.client with _ | c
  · rw [arnoldIsRunning, hc] at h
    exact absurd h (by simp)
  · simp [hc]

/-- C1: if the worker process is no longer alive when `on_run`'s render-wait
loop ends, `on_run` raises the unexpected-exit error whose message includes
the worker's exit code; a normal return happens only when the render
completed while the worker was still alive. -/
theorem onRun_unexpected_exit (s0 : AdaptorState) (rd : List (String × Val))
    (tr : List AdaptorState) (h0 : arnoldIsRunning s0 = true)
    (hc : ∀ x ∈ tr, x.client.isSome = true) :
    (∀ r, onRun s0 rd tr = Except.ok (some r) →
      arnoldIsRunning r = true ∧ r.isRendering = false) ∧
    (∀ s c, onRunLoop (onRunBegin s0 rd :: tr) = Except.ok (some s) →
      s.client = some c → c.alive = false →
      onRun s0 rd tr = Except.error (runExitErrorMsg c.returncode) ∧
      ContainsSub (runExitErrorMsg c.returncode) (toString c.returncode)) := by
  have hrun : onRun s0 rd tr = onRunTail (onRunBegin s0 rd :: tr) := by
    simp [onRun, h0]
  constructor
  · intro r hr
    rw [hrun] at hr
    unfold onRunTail at hr
    rcases hl : onRunLoop (onRunBegin s0 rd :: tr) with e | os
    · rw [hl] at hr
      exact absurd hr (by simp)
    · rw [hl] at hr
      rcases os with _ | s
      · exact absurd hr (by simp)
      · simp only [] at hr
        rcases ha : onRunAfter s with e | u
        · rw [ha] at hr
          exact absurd hr (by simp)
        · rw [ha] at hr
          simp at hr
          subst hr
          have hmem : s ∈ onRunBegin s0 rd :: tr := onRunLoop_exit_mem _ _ hl
          have hsome : s.client.isSome = true := by
            rcases List.mem_cons.mp hmem with hh | hh
            · rw [hh]
              show s0.client.isSome = true
              exact arnoldIsRunning_isSome s0 h0
            · exact hc s hh
          rcases hcl : s.client with _ | c
          · rw [hcl] at hsome
            exact absurd hsome (by simp)
          · have hal : c.alive = true := by
              unfold onRunAfter at ha
              rw [hcl] at ha
              by_cases hb : c.alive = false
              · simp [hb] at ha
              · simpa using hb
            have hnr := onRunLoop_exit_not_rendering _ _ hl
            have hrunning : arnoldIsRunning s = true := by
              rw [arnoldIsRunning, hcl]
              exact hal
            refine ⟨hrunning, ?_⟩
            rw [arnoldIsRendering, hrunning] at hnr
            simpa using hnr
  · intro s c hl hcl hal
    have ha : onRunAfter s = Except.error (runExitErrorMsg c.returncode) := by
      unfold onRunAfter
      rw [hcl]
      simp [hal]
    constructor
    · rw [hrun]
      unfold onRunTail
      rw [hl]
      show (match onRunAfter s with
            | Except.error e => Except.error e
            | Except.ok _ => Except.ok (some s)) =
          Except.error (runExitErrorMsg c.returncode)
      rw [ha]
    · rw [runExitErrorMsg]
      exact containsSub_of_append _ _

/-- A state whose client is alive with exit code 7. -/
def runReadyState : AdaptorState :=
  { initialAdaptorState with client := some ⟨true, 7⟩ }

/-- A state whose client has died with exit code 7 mid-render. -/
def deadState7 : AdaptorState :=
  { initialAdaptorState with client := some ⟨false, 7⟩, isRendering := true }

/-- Witness for C1: a worker dying with exit code 7 during the wait makes
`on_run` raise an error whose message contains `"7"`. -/
theorem onRun_unexpected_exit_witness :
    onRun runReadyState [] [deadState7] =
      Except.error (runExitErrorMsg 7) ∧
    ContainsSub (runExitErrorMsg 7) "7" := by
  have h := onRun_unexpected_exit runReadyState [] [deadState7] rfl
    (by
      intro x hx
      simp at hx
      rw [hx]
      rfl)
  have h2 := h.2 deadState7 ⟨false, 7⟩ rfl rfl rfl
  refine ⟨h2.1, ?_⟩
  have ht : toString (7 : Int) = "7" := by decide
  rw [← ht]
  exact h2.2

/-! Lemmas about `on_cleanup`. -/

theorem setAlive_fields (s : AdaptorState) (a : Bool) :
    (setAlive s a).queue = s.queue ∧ (setAlive s a).server = s.server ∧
    (setAlive s a).excInfo = s.excInfo ∧
    (setAlive s a).performingCleanup = s.performingCleanup := by
  rcases h : s.client with _ | c <;> simp [setAlive, h]

theorem cleanupWait_fields (env : List Bool) (s : AdaptorState) :
    (cleanupWait s env).queue = s.queue ∧
    (cleanupWait s env).server = s.server ∧
    (cleanupWait s env).excInfo = s.excInfo ∧
    (cleanupWait s env).performingCleanup = s.performingCleanup := by
  induction env generalizing s with
  | nil => exact ⟨rfl, rfl, rfl, rfl⟩
  | cons a rest ih =>
    unfold cleanupWait
    split
    · obtain ⟨i1, i2, i3, i4⟩ := ih (setAlive s a)
      obtain ⟨j1, j2, j3, j4⟩ := setAlive_fields s a
      exact ⟨i1.trans j1, i2.trans j2, i3.trans j3, i4.trans j4⟩
    · exact ⟨rfl, rfl, rfl, rfl⟩

theorem terminateClient_fields (s : AdaptorState) :
    (terminateClient s).queue = s.queue ∧
    (terminateClient s).server = s.server ∧
    (terminateClient s).excInfo = s.excInfo ∧
    (terminateClient s).performingCleanup = s.performingCleanup := by
  rcases h : s.client with _ | c <;> simp [terminateClient, h]

theorem arnoldIsRunning_terminateClient (s : AdaptorState) :
    arnoldIsRunning (terminateClient s) = false := by
  rcases h : s.client with _ | c <;> simp [terminateClient, arnoldIsRunning, h]

theorem terminateIfRunning_fields (s : AdaptorState) :
    (terminateIfRunning s).queue = s.queue ∧
    (terminateIfRunning s).server = s.server ∧
    (terminateIfRunning s).excInfo = s.excInfo ∧
    (terminateIfRunning s).performingCleanup = s.performingCleanup := by
  unfold terminateIfRunning
  split
  · exact terminateClient_fields s
  · exact ⟨rfl, rfl, rfl, rfl⟩

theorem arnoldIsRunning_terminateIfRunning (s : AdaptorState) :
    arnoldIsRunning (terminateIfRunning s) = false := by
  unfold terminateIfRunning
  by_cases hb : arnoldIsRunning s = true
  · rw [if_pos (by simp [hb, arnoldIsRunning_isSome s hb])]
    exact arnoldIsRunning_terminateClient s
  · rw [if_neg (by simp [Bool.not_eq_true] at hb; simp [hb])]
    simpa using hb

theorem shutdownServer_fields (s : AdaptorState) :
    (shutdownServer s).client = s.client ∧
    (shutdownServer s).queue = s.queue ∧
    (shutdownServer s).excInfo = s.excInfo ∧
    (shutdownServer s).performingCleanup = s.performingCleanup := by
  rcases h : s.server with _ | v <;> simp [shutdownServer, h]

theorem serverStopped_shutdownServer (s : AdaptorState) :
    serverStopped (shutdownServer s) = true := by
  rcases h : s.server with _ | v <;> simp [shutdownServer, serverStopped, h]

theorem arnoldIsRunning_eq_of_client_eq (s t : AdaptorState)
    (h : s.client = t.client) : arnoldIsRunning s = arnoldIsRunning t := by
  unfold arnoldIsRunning
  rw [h]

/-- Summary of the state `on_cleanup` leaves behind: the worker is not
running, the server is shut down, the cleanup flag is cleared, the `close`
Action was front-enqueued, and the stored exception is untouched. -/
theorem onCleanupState_spec (s0 : AdaptorState) (env : List Bool) :
    arnoldIsRunning (onCleanupState s0 env) = false ∧
    serverStopped (onCleanupState s0 env) = true ∧
    (onCleanupState s0 env).performingCleanup = false ∧
    (onCleanupState s0 env).queue = closeAction :: s0.queue ∧
    (onCleanupState s0 env).excInfo = s0.excInfo := by
  unfold onCleanupState
  obtain ⟨w1, w2, w3, w4⟩ := cleanupWait_fields env (beginCleanup s0)
  obtain ⟨t1, t2, t3, t4⟩ :=
    terminateIfRunning_fields (cleanupWait (beginCleanup s0) env)
  obtain ⟨d0, d1, d2, d3⟩ :=
    shutdownServer_fields
      (terminateIfRunning (cleanupWait (beginCleanup s0) env))
  refine ⟨?_, ?_, rfl, ?_, ?_⟩
  · show arnoldIsRunning
      (shutdownServer (terminateIfRunning (cleanupWait (beginCleanup s0) env)))
      = false
    rw [arnoldIsRunning_eq_of_client_eq _ _ d0]
    exact arnoldIsRunning_terminateIfRunning _
  · show serverStopped
      (shutdownServer (terminateIfRunning (cleanupWait (beginCleanup s0) env)))
      = true
    exact serverStopped_shutdownServer _
  · show (shutdownServer
        (terminateIfRunning (cleanupWait (beginCleanup s0) env))).queue =
      closeAction :: s0.queue
    rw [d1, t1, w1]
    rfl
  · show (shutdownServer
        (terminateIfRunning (cleanupWait (beginCleanup s0) env))).excInfo =
      s0.excInfo
    rw [d2, t3, w3]
    rfl

/-- C2: `on_cleanup` never raises; it front-enqueues the `close` Action,
waits up to its bound (the 30-second `_ARNOLD_END_TIMEOUT_SECONDS` timer)
for the worker to exit, force-terminates the worker if it is still alive
(logging instead of raising), and when it returns the Control Server has
been shut down and the worker process is not running. -/
theorem onCleanup_releases_resources (s0 : AdaptorState) (env : List Bool) :
    ∃ s', onCleanup s0 env = Except.ok s' ∧
      arnoldIsRunning s' = false ∧ serverStopped s' = true ∧
      s'.performingCleanup = false ∧ s'.queue = closeAction :: s0.queue ∧
      ARNOLD_END_TIMEOUT_SECONDS = 30 := by
  obtain ⟨h1, h2, h3, h4, h5⟩ := onCleanupState_spec s0 env
  exact ⟨onCleanupState s0 env, rfl, h1, h2, h3, h4, rfl⟩

/-- Witness for C2: a concrete cleanup run from a state with a live worker
and a running server, where the worker ignores `close` until the timer
expires. -/
theorem onCleanup_releases_resources_witness :
    ∃ s', onCleanup
        { initialAdaptorState with client := some ⟨true, 0⟩,
                                   server := some ⟨true⟩ }
        [true, true] = Except.ok s' ∧
      arnoldIsRunning s' = false ∧ serverStopped s' = true ∧
      s'.performingCleanup = false ∧
      s'.queue = closeAction :: initialAdaptorState.queue ∧
      ARNOLD_END_TIMEOUT_SECONDS = 30 :=
  onCleanup_releases_resources
    { initialAdaptorState with client := some ⟨true, 0⟩,
                               server := some ⟨true⟩ }
    [true, true]

/-- C10: `on_cleanup` clears the cleanup flag on return but never clears the
stored exception, so an error recorded before or during cleanup is re-raised
by the first `_has_exception` check after `on_cleanup` returns. -/
theorem onCleanup_preserves_exception (s0 : AdaptorState) (env : List Bool) :
    ∃ s', onCleanup s0 env = Except.ok s' ∧
      s'.performingCleanup = false ∧ s'.excInfo = s0.excInfo ∧
      (∀ e, s0.excInfo = some e → hasExceptionE s' = Except.error e) := by
  obtain ⟨h1, h2, h3, h4, h5⟩ := onCleanupState_spec s0 env
  refine ⟨onCleanupState s0 env, rfl, h3, h5, ?_⟩
  intro e he
  unfold hasExceptionE
  rw [h5, he, h3]
  simp

/-- Witness for C10: an error recorded before cleanup survives it and the
next `_has_exception` check raises it. -/
theorem onCleanup_preserves_exception_witness :
    ∃ s', onCleanup
        { initialAdaptorState with excInfo := some "E",
                                   client := some ⟨true, 0⟩ }
        [false] = Except.ok s' ∧
      s'.performingCleanup = false ∧ s'.excInfo = some "E" ∧
      hasExceptionE s' = Except.error "E" := by
  obtain ⟨s', h1, h2, h3, h4⟩ := onCleanup_preserves_exception
    { initialAdaptorState with excInfo := some "E", client := some ⟨true, 0⟩ }
    [false]
  exact ⟨s', h1, h2, by rw [h3], h4 "E" rfl⟩

/-! Lemmas about the `on_start` busy-poll. -/

/-- If the poll exits while the worker is alive, no error is recorded and
the queue is non-empty, then the exit can only have happened because the
startup timer expired. -/
theorem onStartLoop_alive_noexc_timeout (tr : List AdaptorState)
    (fuel : Nat) (s : AdaptorState) (nto : Bool)
    (h : onStartLoop fuel tr = Except.ok (some (s, nto)))
    (ha : arnoldIsRunning s = true) (he : s.excInfo = none)
    (hq : s.queue.length ≠ 0) : nto = false := by
  induction tr generalizing fuel with
  | nil => simp [onStartLoop] at h
  | cons x rest ih =>
    unfold onStartLoop at h
    split at h
    · next hr =>
      simp at h
      obtain ⟨rfl, -⟩ := h
      rw [ha] at hr
      exact absurd hr (by simp)
    · split at h
      · exact absurd h (by simp)
      · split at h
        · next hq0 =>
          simp at h
          obtain ⟨rfl, -⟩ := h
          exact absurd hq0 hq
        · split at h
          · simp at h
            obtain ⟨-, h2⟩ := h
            exact h2
          · exact ih (fuel - 1) h

/-- C3 counterexample: the worker is dead, no error was recorded and the
queue is not drained, yet the raised error is the `TimeoutError` (because
the timer had also expired), not the runtime error — contradicting the
claim that a timeout error is raised exactly when the worker is still
alive. -/
theorem onStart_timeout_dead_worker_cex :
    onStartTail 0
        [{ initialAdaptorState with
            client := some ⟨false, 1⟩,
            queue := [⟨"scene_file", [("scene_file", Val.vs "shot.ass")]⟩] }]
      = Except.error startTimeoutMsg ∧
    arnoldIsRunning
        { initialAdaptorState with
            client := some ⟨false, 1⟩,
            queue := [⟨"scene_file", [("scene_file", Val.vs "shot.ass")]⟩] }
      = false ∧
    AdaptorState.excInfo
        { initialAdaptorState with
            client := some ⟨false, 1⟩,
            queue := [⟨"scene_file", [("scene_file", Val.vs "shot.ass")]⟩] }
      = none ∧
    startTimeoutMsg ≠ startRuntimeErrorMsg := by
  refine ⟨rfl, rfl, rfl, by decide⟩

/-- C3 amended: when `on_start`'s busy-poll ends with the Action Queue not
fully drained, the raised error is the `TimeoutError` exactly when the
startup timer has expired at the post-loop check — which is guaranteed
whenever the worker is still alive and no error was recorded — and is the
runtime error describing the worker's failure to complete initialization
exactly when the timer had not expired (the worker died early). -/
theorem onStart_post_loop_errors (fuel : Nat) (tr : List AdaptorState)
    (s : AdaptorState) (nto : Bool)
    (h : onStartLoop fuel tr = Except.ok (some (s, nto)))
    (hq : s.queue.length ≠ 0) :
    (onStartTail fuel tr = Except.error startTimeoutMsg ↔ nto = false) ∧
    (onStartTail fuel tr = Except.error startRuntimeErrorMsg ↔ nto = true) ∧
    (arnoldIsRunning s = true → s.excInfo = none → nto = false) := by
  have hmsg : startTimeoutMsg ≠ startRuntimeErrorMsg := by decide
  have hafter : onStartAfter s nto =
      (if nto then Except.error startRuntimeErrorMsg
       else Except.error startTimeoutMsg) := by
    unfold onStartAfter
    rw [if_pos (Nat.pos_of_ne_zero hq)]
  have htail : onStartTail fuel tr =
      (if nto then Except.error startRuntimeErrorMsg
       else Except.error startTimeoutMsg) := by
    unfold onStartTail
    rw [h]
    show (match onStartAfter s nto with
          | Except.error e => Except.error e
          | Except.ok _ => Except.ok (some s)) =
        (if nto then Except.error startRuntimeErrorMsg
         else Except.error startTimeoutMsg)
    rw [hafter]
    rcases nto with _ | _ <;> rfl
  refine ⟨?_, ?_, ?_⟩
  · rw [htail]
    rcases nto with _ | _ <;> simp [hmsg, Ne.symm hmsg]
  · rw [htail]
    rcases nto with _ | _ <;> simp [hmsg, Ne.symm hmsg]
  · intro ha he
    exact onStartLoop_alive_noexc_timeout tr fuel s nto h ha he hq

/-- Witness for C3's amended claim: a live worker with an undrained queue
whose timer runs out gets the `TimeoutError`. -/
theorem onStart_post_loop_errors_witness :
    onStartTail 0
        [{ initialAdaptorState with
            client := some ⟨true, 0⟩,
            queue := [⟨"scene_file", [("scene_file", Val.vs "shot.ass")]⟩] }]
      = Except.error startTimeoutMsg := by
  have h := onStart_post_loop_errors 0
    [{ initialAdaptorState with
        client := some ⟨true, 0⟩,
        queue := [⟨"scene_file", [("scene_file", Val.vs "shot.ass")]⟩] }]
    { initialAdaptorState with
        client := some ⟨true, 0⟩,
        queue := [⟨"scene_file", [("scene_file", Val.vs "shot.ass")]⟩] }
    false rfl (by decide)
  exact h.1.mpr rfl

/-! Claims about the worker client's startup checks. -/

/-- A disk where the socket path appears one second after the client
starts. -/
def availAfterOneSecond : Nat → String → Bool :=
  fun t _ => decide (1 ≤ t)

/-- C8 counterexample: the socket path is published one second after the
client starts — well within a 30-second bound — yet the client fails
immediately with the missing-path error instead of retrying or polling
until the path is available. -/
theorem clientMain_no_retry_cex :
    clientMain [(SERVER_PATH_ENV, "/tmp/a.sock")] availAfterOneSecond =
      Except.error (clientNoPathMsg "/tmp/a.sock") ∧
    availAfterOneSecond 1 "/tmp/a.sock" = true ∧
    (1 : Nat) ≤ 30 := by
  refine ⟨rfl, rfl, by decide⟩

/-- C8 amended: the worker client performs a single check at startup, with
no retry loop: if `ARNOLD_ADAPTOR_SERVER_PATH` is absent it fails with a
descriptive error naming the variable; if the variable names a path that
does not exist on disk at that moment it fails with a descriptive error
naming the path; otherwise it proceeds.  (The bounded 30-second poll for
the socket path happens on the adaptor side, in `_wait_for_socket`, before
the worker is spawned.) -/
theorem clientMain_single_check (env : List (String × String))
    (ex : Nat → String → Bool) :
    (envGet env SERVER_PATH_ENV = none →
      clientMain env ex = Except.error clientNoVarMsg ∧
      ContainsSub clientNoVarMsg SERVER_PATH_ENV) ∧
    (∀ p, envGet env SERVER_PATH_ENV = some p → p.isEmpty = false →
      ex 0 p = false →
      clientMain env ex = Except.error (clientNoPathMsg p) ∧
      ContainsSub (clientNoPathMsg p) p) ∧
    (∀ p, envGet env SERVER_PATH_ENV = some p → p.isEmpty = false →
      ex 0 p = true → clientMain env ex = Except.ok ()) := by
  refine ⟨?_, ?_, ?_⟩
  · intro h
    refine ⟨?_, by decide⟩
    unfold clientMain
    rw [h]
  · intro p hp hne hex
    constructor
    · unfold clientMain
      rw [hp]
      simp [hne, hex]
    · unfold clientNoPathMsg
      exact containsSub_of_append _ _
  · intro p hp hne hex
    unfold clientMain
    rw [hp]
    simp [hne, hex]

/-- Witness for C8's amended claim at concrete environments. -/
theorem clientMain_single_check_witness :
    clientMain [] availAfterOneSecond = Except.error clientNoVarMsg ∧
    ContainsSub clientNoVarMsg SERVER_PATH_ENV ∧
    clientMain [(SERVER_PATH_ENV, "/tmp/a.sock")] (fun _ _ => true)
      = Except.ok () := by
  have h1 := clientMain_single_check [] availAfterOneSecond
  have h2 := clientMain_single_check [(SERVER_PATH_ENV, "/tmp/a.sock")]
    (fun _ _ => true)
  obtain ⟨e1, e2⟩ := h1.1 rfl
  exact ⟨e1, e2, h2.2.2 "/tmp/a.sock" rfl rfl rfl⟩

/-! Claim C9: the init Actions enqueued during start. -/

theorem actionFromActionItem_eq (d : List (String × Val)) (k : String)
    (a : ActionT) (h : actionFromActionItem d k = some a) :
    ∃ v, lookupInit d k = some v ∧ a = ⟨k, [(k, v)]⟩ := by
  unfold actionFromActionItem at h
  rcases hv : lookupInit d k with _ | v
  · rw [hv] at h
    exact absurd h (by simp)
  · rw [hv] at h
    simp at h
    exact ⟨v, rfl, h.symm⟩

theorem populate_toList (d : List (String × Val)) :
    populateActionQueue d [] =
      (actionFromActionItem d "scene_file").toList ++
      ((actionFromActionItem d "output_file_path").toList ++
       (actionFromActionItem d "error_on_arnold_license_fail").toList) := by
  unfold populateActionQueue ARNOLD_INIT_KEYS
  rcases h1 : actionFromActionItem d "scene_file" with _ | a1 <;>
    rcases h2 : actionFromActionItem d "output_file_path" with _ | a2 <;>
      rcases h3 : actionFromActionItem d "error_on_arnold_license_fail"
          with _ | a3 <;>
        simp [h1, h2, h3]

theorem countP_toList_item (d : List (String × Val)) (k k' : String) :
    List.countP (fun a => a.name == k) (actionFromActionItem d k').toList =
      if (lookupInit d k').isSome ∧ k' = k then 1 else 0 := by
  rcases hv : lookupInit d k' with _ | v
  · simp [actionFromActionItem, hv]
  · by_cases hk : k' = k
    · subst hk
      simp [actionFromActionItem, hv, List.countP_cons]
    · simp [actionFromActionItem, hv, hk, List.countP_cons]

/-- C9: during start, exactly one Action is enqueued per recognized init key
present in `init_data`, named after the key and carrying the payload
`{key: init_data[key]}`; every enqueued Action stems from a recognized key,
so keys outside the recognized set (such as `strict_error_checking`) produce
no Action. -/
theorem populate_one_action_per_key (d : List (String × Val)) :
    (∀ k v, k ∈ ARNOLD_INIT_KEYS → lookupInit d k = some v →
      (List.countP (fun a => a.name == k) (populateActionQueue d []) = 1 ∧
       ActionT.mk k [(k, v)] ∈ populateActionQueue d [])) ∧
    (∀ k, k ∈ ARNOLD_INIT_KEYS → lookupInit d k = none →
      List.countP (fun a => a.name == k) (populateActionQueue d []) = 0) ∧
    (∀ a ∈ populateActionQueue d [],
      a.name ∈ ARNOLD_INIT_KEYS ∧
      actionFromActionItem d a.name = some a) := by
  refine ⟨?_, ?_, ?_⟩
  · intro k v hk hv
    have hk' : k = "scene_file" ∨ k = "output_file_path" ∨
        k = "error_on_arnold_license_fail" := by
      simpa [ARNOLD_INIT_KEYS] using hk
    constructor
    · rw [populate_toList, List.countP_append, List.countP_append,
        countP_toList_item, countP_toList_item, countP_toList_item]
      rcases hk' with rfl | rfl | rfl <;> simp [hv]
    · rw [populate_toList]
      rcases hk' with rfl | rfl | rfl <;>
        simp [actionFromActionItem, hv]
  · intro k hk hv
    rw [populate_toList, List.countP_append, List.countP_append,
      countP_toList_item, countP_toList_item, countP_toList_item]
    have hk' : k = "scene_file" ∨ k = "output_file_path" ∨
        k = "error_on_arnold_license_fail" := by
      simpa [ARNOLD_INIT_KEYS] using hk
    rcases hk' with rfl | rfl | rfl <;> simp [hv]
  · intro a ha
    rw [populate_toList] at ha
    simp only [List.mem_append] at ha
    have step : ∀ k' : String, a ∈ (actionFromActionItem d k').toList →
        a.name = k' ∧ actionFromActionItem d a.name = some a := by
      intro k' hmem
      have h : actionFromActionItem d k' = some a := by
        rcases hx : actionFromActionItem d k' with _ | b
        · rw [hx] at hmem
          exact absurd hmem (by simp)
        · rw [hx] at hmem
          have hab : a = b := by simpa using hmem
          rw [hab]
      obtain ⟨v, hv, rfl⟩ := actionFromActionItem_eq d k' a h
      exact ⟨rfl, h⟩
    rcases ha with h | h | h
    · obtain ⟨hn, hs⟩ := step "scene_file" h
      exact ⟨by simp [ARNOLD_INIT_KEYS, hn], hs⟩
    · obtain ⟨hn, hs⟩ := step "output_file_path" h
      exact ⟨by simp [ARNOLD_INIT_KEYS, hn], hs⟩
    · obtain ⟨hn, hs⟩ := step "error_on_arnold_license_fail" h
      exact ⟨by simp [ARNOLD_INIT_KEYS, hn], hs⟩

/-- Witness for C9: an `init_data` holding `scene_file` and
`strict_error_checking` yields exactly one `scene_file` Action with payload
`{scene_file: value}`, and no Action for the other keys. -/
theorem populate_one_action_per_key_witness :
    List.countP (fun a => a.name == "scene_file")
        (populateActionQueue
          [("scene_file", Val.vs "x.ass"),
           ("strict_error_checking", Val.vb false)] []) = 1 ∧
    ActionT.mk "scene_file" [("scene_file", Val.vs "x.ass")] ∈
      populateActionQueue
        [("scene_file", Val.vs "x.ass"),
         ("strict_error_checking", Val.vb false)] [] ∧
    List.countP (fun a => a.name == "output_file_path")
        (populateActionQueue
          [("scene_file", Val.vs "x.ass"),
           ("strict_error_checking", Val.vb false)] []) = 0 := by
  have h := populate_one_action_per_key
    [("scene_file", Val.vs "x.ass"), ("strict_error_checking", Val.vb false)]
  obtain ⟨c1, c2⟩ := h.1 "scene_file" (Val.vs "x.ass") (by decide) (by decide)
  exact ⟨c1, c2, h.2.1 "output_file_path" (by decide) (by decide)⟩

end Arnold
